import Mathlib

/-!
Shallow embedding of the credential-lifecycle core of the bunq CLI:
the handshake controller (`setupAuth`, `refreshSession` from the auth
command module), the request dispatcher and canonical signer
(`bunqRequest`, `signRequest` from `src/client.js`), and the secret
rotation path of the config command (`src/commands/config.js`).

The external key-value credential store (the `store` object from the
config module, a durable key-value persistence collaborator) is
modelled as a record of optional string fields; `store.set` becomes a
functional record update to `some v`, `store.delete` an update to
`none`, and `getConfig()` reads the record.  Network transport and
cryptographic primitives (axios, `crypto.generateKeyPairSync`,
`crypto.createSign`) are modelled as oracle parameters: key generation
consumes a supplied fresh key pair, signing is an oracle from key and
data to an optional signature (`none` models a thrown exception), and
the network is an oracle from the outgoing call to a response or
error.  JavaScript truthiness on credential strings (`null`,
`undefined` and `""` are all falsy) is modelled explicitly.
-/

namespace Bunq

/-- The credential store.  Each field is `some v` when the key is present
with value `v` and `none` when absent.  `sandbox` is the environment
selector flag. -/
structure Store where
  apiKey : Option String := none
  sandbox : Bool := true
  privateKey : Option String := none
  publicKey : Option String := none
  serverPublicKey : Option String := none
  installationToken : Option String := none
  sessionToken : Option String := none
  userId : Option String := none
deriving DecidableEq, Repr

/-- One element of the wire `Response` array.  Each JSON element is an
object whose keys discriminate the payload: `Token` (carrying a token
string), `ServerPublicKey` (carrying a server public key string), and the
three mutually exclusive principal shapes `UserPerson`, `UserCompany`,
`UserApiKey` (each carrying a numeric id).  A field is `some _` exactly
when the corresponding key is present on the element. -/
structure RespItem where
  token : Option String := none
  serverPublicKey : Option String := none
  userPerson : Option Nat := none
  userCompany : Option Nat := none
  userApiKey : Option Nat := none
deriving DecidableEq, Repr

/-- A response envelope is the array under the `Response` key. -/
abbrev Envelope := List RespItem

/-- Error taxonomy of the core: missing configuration (the code prints an
error and exits), malformed or incomplete server response (the code
throws `new Error(msg)`), remote HTTP rejection, and transport failure. -/
inductive BunqError where
  | configError (msg : String)
  | protocolError (msg : String)
  | httpStatusError (status : Nat) (body : String)
  | transportError (msg : String)
deriving DecidableEq, Repr

/-- Request bodies sent by the handshake controller, as built literally in
the auth command module. -/
inductive ReqBody where
  | installation (clientPublicKey : String)
  | deviceServer (description : String) (secret : String)
      (permittedIps : List String)
  | sessionServer (secret : String)
deriving DecidableEq, Repr

/-- One outgoing network call of the handshake controller: the endpoint
path, the JSON body, and the authentication token passed to `bunqPost`
(`none` models passing `null`). -/
structure NetCall where
  endpoint : String
  body : ReqBody
  token : Option String
deriving DecidableEq, Repr

/-- The network oracle: what the remote endpoint answers to each call. -/
abbrev Net := NetCall → Except BunqError Envelope

/-- The scan loop of the installation step: iterate over the `Response`
array, remembering the last `Token.token` and the last
`ServerPublicKey.server_public_key` seen (`for (const item of ...)` with
two independent `if`s). -/
def scanInstall (items : Envelope) : Option String × Option String :=
  items.foldl
    (fun acc it =>
      ((match it.token with
        | some t => some t
        | none => acc.1),
       (match it.serverPublicKey with
        | some k => some k
        | none => acc.2)))
    (none, none)

/-- The scan loop of the session step: iterate over the `Response` array,
remembering the last `Token.token` and the id of the last principal
entry, where each element is inspected with an
`UserPerson / else UserCompany / else UserApiKey` chain and the id is
stringified (`String(item.UserPerson.id)`). -/
def scanSession (items : Envelope) : Option String × Option String :=
  items.foldl
    (fun acc it =>
      ((match it.token with
        | some t => some t
        | none => acc.1),
       (match it.userPerson with
        | some i => some (toString i)
        | none =>
          match it.userCompany with
          | some i => some (toString i)
          | none =>
            match it.userApiKey with
            | some i => some (toString i)
            | none => acc.2)))
    (none, none)

/-- Result of a handshake-controller run: the final store (mutations made
before a failure are kept — the code does not roll back), the ordered
trace of network calls issued, and the outcome (`none` on success,
`some e` when the run aborted with `e`; the code forwards `e` to
`handleError`, which prints it and exits). -/
structure AuthResult where
  store : Store
  calls : List NetCall
  err : Option BunqError
deriving DecidableEq, Repr

/-- The key-pair establishment step of `setupAuth` (step 1): the code
calls `crypto.generateKeyPairSync` unconditionally and persists both
parts with `store.set`.  The generated randomness is the `fresh`
parameter `(privateKey, publicKey)`. -/
def keyPairStep (fresh : String × String) (s : Store) :
    (String × String) × Store :=
  (fresh, { s with privateKey := some fresh.1, publicKey := some fresh.2 })

/-- The error message printed when no API key is configured. -/
def noApiKeyMsg : String :=
  "No API key configured. Run: bunq config set --api-key <key>"

/-- JavaScript truthiness of an optional credential string: `null` or
`undefined` (modelled `none`) and the empty string are falsy. -/
def truthy (o : Option String) : Bool :=
  match o with
  | some s => !(s == "")
  | none => false

/-- `setupAuth` from the auth command module: check the API key
(`if (!config.apiKey)`, JavaScript truthiness, so a missing or empty key
exits with the configuration error), generate and persist a key pair,
POST `/installation` unauthenticated, scan the envelope for the
installation token and server public key, throw the protocol error when
the scanned token is falsy (`if (!installationToken)`), persist the
token and — only when truthy (`if (serverPublicKey)`) — the server
public key, POST `/device-server` and `/session-server` authenticated
with the installation token, scan the session envelope for the session
token and principal id, throw when the scanned session token is falsy
(`if (!sessionToken)`), and persist it and — only when truthy
(`if (userId)`) — the principal id. -/
def setupAuth (fresh : String × String) (net : Net) (s : Store) :
    AuthResult :=
  if !truthy s.apiKey then ⟨s, [], some (.configError noApiKeyMsg)⟩
  else
    let apiKey := s.apiKey.getD ""
    let s1 := (keyPairStep fresh s).2
    let c1 : NetCall := ⟨"/installation", .installation fresh.2, none⟩
    match net c1 with
    | .error e => ⟨s1, [c1], some e⟩
    | .ok env1 =>
      let scanned := scanInstall env1
      if !truthy scanned.1 then
        ⟨s1, [c1],
          some (.protocolError
            "Failed to obtain installation token from response.")⟩
      else
        let instTok := scanned.1.getD ""
        let s2 : Store :=
          { s1 with
            installationToken := some instTok
            serverPublicKey :=
              if truthy scanned.2 then scanned.2
              else s1.serverPublicKey }
        let c2 : NetCall :=
          ⟨"/device-server", .deviceServer "bunq-cli" apiKey ["*"],
            some instTok⟩
        match net c2 with
        | .error e => ⟨s2, [c1, c2], some e⟩
        | .ok _ =>
          let c3 : NetCall :=
            ⟨"/session-server", .sessionServer apiKey, some instTok⟩
          match net c3 with
          | .error e => ⟨s2, [c1, c2, c3], some e⟩
          | .ok env3 =>
            let sc := scanSession env3
            if !truthy sc.1 then
              ⟨s2, [c1, c2, c3],
                some (.protocolError
                  "Failed to obtain session token from response.")⟩
            else
              ⟨{ s2 with
                  sessionToken := sc.1
                  userId := if truthy sc.2 then sc.2 else s2.userId },
                [c1, c2, c3], none⟩

/-- `refreshSession` from the auth command module: check the API key
(`if (!config.apiKey)`, truthiness); when the stored installation token
is falsy (`if (!config.installationToken)`, so missing or empty),
delegate to `setupAuth`; otherwise POST `/session-server` authenticated
with the stored installation token, scan for the session token and
principal id, throw when the scanned session token is falsy, and persist
it and — only when truthy — the principal id. -/
def refreshSession (fresh : String × String) (net : Net) (s : Store) :
    AuthResult :=
  if !truthy s.apiKey then ⟨s, [], some (.configError noApiKeyMsg)⟩
  else if !truthy s.installationToken then setupAuth fresh net s
  else
    let apiKey := s.apiKey.getD ""
    let instTok := s.installationToken.getD ""
    let c : NetCall :=
      ⟨"/session-server", .sessionServer apiKey, some instTok⟩
    match net c with
    | .error e => ⟨s, [c], some e⟩
    | .ok env =>
      let sc := scanSession env
      if !truthy sc.1 then
        ⟨s, [c],
          some (.protocolError "Failed to obtain session token.")⟩
      else
        ⟨{ s with
            sessionToken := sc.1
            userId := if truthy sc.2 then sc.2 else s.userId },
          [c], none⟩

/-- The `config set --api-key <key>` action from the config command
module: `store.set('apiKey', k)` followed by `store.delete` of
`sessionToken`, `installationToken`, `privateKey`, `publicKey`,
`serverPublicKey`, `userId`. -/
def configSetApiKey (k : String) (s : Store) : Store :=
  { s with
    apiKey := some k
    sessionToken := none
    installationToken := none
    privateKey := none
    publicKey := none
    serverPublicKey := none
    userId := none }

/-- JavaScript `a || b` on credential strings: `null`/`undefined`
(modelled `none`) and `""` are falsy and fall through to `b`; any other
string is returned. -/
def jsOr (a b : Option String) : Option String :=
  match a with
  | some s => if s = "" then b else some s
  | none => b

/-- Token selection of `bunqRequest`:
`token || config.sessionToken || config.installationToken`. -/
def selectToken (token sessionToken installationToken : Option String) :
    Option String :=
  jsOr token (jsOr sessionToken installationToken)

/-- The string signed by `signRequest`: upper-cased method, a space, the
fixed `/v1` version marker concatenated with the endpoint path, two
newlines, then the serialized body (`body ? JSON.stringify(body) : ''`,
so the empty string when no body). -/
def signData (method endpoint : String) (body : Option String) : String :=
  method.toUpper ++ " /v1" ++ endpoint ++ "\n\n" ++ body.getD ""

/-- The signing oracle: given a private key and the data to sign, either
the base64 signature or `none` when `crypto.createSign(...).sign` throws. -/
abbrev Signer := String → String → Option String

/-- `signRequest` from `src/client.js`: build the signing string, sign it
with the private key; if signing throws for any reason, return the empty
string (the absent signature). -/
def signRequest (signer : Signer) (method endpoint : String)
    (body : Option String) (privateKeyPem : String) : String :=
  match signer privateKeyPem (signData method endpoint body) with
  | some sig => sig
  | none => ""

/-- The headers assembled by `bunqRequest`.  Fixed fields are stored as
values; the authentication-token and signature headers are optional
(`none` models the header being absent). -/
structure Headers where
  contentType : String
  cacheControl : String
  language : String
  region : String
  clientRequestId : String
  geolocation : String
  auth : Option String
  signature : Option String
deriving DecidableEq, Repr

/-- The outgoing HTTP request handed to axios. -/
structure SentRequest where
  method : String
  url : String
  body : Option String
  headers : Headers
deriving DecidableEq, Repr

/-- The transport oracle: what axios returns for the request — the parsed
response data on a 2xx answer, or an error (connectivity or non-2xx). -/
abbrev Transport := SentRequest → Except BunqError String

/-- Modelled from the spec: `getBaseUrl` lives in the config module,
which is not among the source files; the spec says only that the
environment selector chooses the sandbox or production base endpoint. -/
def getBaseUrl (s : Store) : String :=
  if s.sandbox then "https://public-api.sandbox.bunq.com/v1"
  else "https://api.bunq.com/v1"

/-- Outcome of one `bunqRequest` dispatch: the credential store after the
call, the request that was sent, and the transport outcome. -/
structure DispatchOut where
  store : Store
  req : SentRequest
  result : Except BunqError String
deriving Repr

/-- `bunqRequest` from `src/client.js`: read the config snapshot, select
the authentication token (explicit argument, else session token, else
installation token), build the fixed headers plus the per-call request
id (`uuid`, the freshly generated `crypto.randomUUID()`), attach the
authentication header only if a token was selected, attach the signature
header only if a private key is present and `signRequest` returned a
non-empty signature, then send the request and return axios's answer.
The store is threaded through unchanged — the function only reads it. -/
def bunqRequest (uuid : String) (signer : Signer) (transport : Transport)
    (s : Store) (method endpoint : String) (body : Option String)
    (token : Option String) : DispatchOut :=
  let authToken := selectToken token s.sessionToken s.installationToken
  let req : SentRequest :=
    { method := method
      url := getBaseUrl s ++ endpoint
      body := body
      headers :=
        { contentType := "application/json"
          cacheControl := "no-cache"
          language := "en_US"
          region := "en_US"
          clientRequestId := uuid
          geolocation := "0 0 0 0 000"
          auth := if truthy authToken then authToken else none
          signature :=
            if truthy s.privateKey then
              let sig :=
                signRequest signer method endpoint body (s.privateKey.getD "")
              if sig = "" then none else some sig
            else none } }
  ⟨s, req, transport req⟩

/-- A canned network oracle answering the three handshake endpoints with
the end-to-end test fixtures of the spec: a token entry `T1` for the
installation, an empty envelope for device registration, and a token
entry `T2` plus a `UserPerson` with id 42 for session creation. -/
def cannedNet : Net := fun c =>
  match c.endpoint with
  | "/installation" => .ok [{ token := some "T1" }]
  | "/device-server" => .ok []
  | "/session-server" =>
    .ok [{ token := some "T2" }, { userPerson := some 42 }]
  | _ => .error (.transportError "unexpected endpoint")

/-- A canned network oracle whose installation answer is the envelope
parsing fixture of the spec: a token entry `abc` and a server-public-key
entry `pk`. -/
def cannedNetAbc : Net := fun c =>
  match c.endpoint with
  | "/installation" =>
    .ok [{ token := some "abc" }, { serverPublicKey := some "pk" }]
  | "/device-server" => .ok []
  | "/session-server" => .ok [{ token := some "T2" }]
  | _ => .error (.transportError "unexpected endpoint")

/-- A transport oracle that accepts every request. -/
def okTransport : Transport := fun _ => .ok "ok"

/-- A signing oracle that always fails (models `crypto` throwing). -/
def failSigner : Signer := fun _ _ => none

/-- A signing oracle that tags the key and the signed data (injective in
both, so distinct data yield distinct signatures). -/
def tagSigner : Signer := fun key dat => some ("sig(" ++ key ++ "," ++ dat ++ ")")

/-- A JavaScript-falsy optional credential string: absent or empty. -/
def jsAbsent (o : Option String) : Prop := o = none ∨ o = some ""

end Bunq

namespace Bunq

/-- C4: after rotating the secret (setting a new API key via the config
command), the fields `installationToken`, `sessionToken`, `privateKey`,
`publicKey`, `serverPublicKey` and `userId` are all absent from the
credential store, for every prior store state. -/
theorem c4_secret_rotation_clears_credentials (k : String) (s : Store) :
    (configSetApiKey k s).installationToken = none ∧
    (configSetApiKey k s).sessionToken = none ∧
    (configSetApiKey k s).privateKey = none ∧
    (configSetApiKey k s).publicKey = none ∧
    (configSetApiKey k s).serverPublicKey = none ∧
    (configSetApiKey k s).userId = none := by
  simp [configSetApiKey]

/-- C10: the request dispatcher never mutates the credential store — for
every method, path, body and explicit-token argument, and every signer
and transport outcome, the store after `bunqRequest` equals the store
before. -/
theorem c10_dispatch_preserves_store (uuid : String) (signer : Signer)
    (transport : Transport) (s : Store) (method endpoint : String)
    (body token : Option String) :
    (bunqRequest uuid signer transport s method endpoint body token).store
      = s := rfl

/-- C6: the canonical signer signs exactly the string formed by the
upper-cased method, one space, the fixed version marker `/v1`
concatenated with the path, two newlines, and the serialized body (empty
when no body is given); and whenever signing fails (the crypto oracle
throws), `signRequest` returns the empty string, i.e. the absent
signature, instead of raising. -/
theorem c6_signing_string_and_fallback (signer : Signer)
    (method endpoint : String) (body : Option String) (pem : String) :
    signData method endpoint body =
      method.toUpper ++ " " ++ "/v1" ++ endpoint ++ "\n\n" ++
        body.getD "" ∧
    signRequest signer method endpoint body pem =
      (signer pem (signData method endpoint body)).getD "" ∧
    (signer pem (signData method endpoint body) = none →
      signRequest signer method endpoint body pem = "") := by
  refine ⟨?_, ?_, ?_⟩
  · unfold signData
    rw [String.append_assoc method.toUpper " " "/v1"]
    rfl
  · unfold signRequest
    cases signer pem (signData method endpoint body) <;> rfl
  · intro h
    unfold signRequest
    rw [h]

/-- C6 witness: at a concrete failing signer, the signature is absent. -/
theorem c6_witness :
    signRequest failSigner "get" "/user/1" none "KEY" = "" := by
  exact (c6_signing_string_and_fallback failSigner "get" "/user/1" none
    "KEY").2.2 rfl

/-- C7: the dispatcher selects the authentication token in fixed
precedence order — the explicit token argument when given (a non-empty
string), else the stored session token, else the stored installation
token, else the request carries no authentication-token header.  Absence
follows JavaScript truthiness: a missing or empty string falls through. -/
theorem c7_token_precedence (uuid : String) (signer : Signer)
    (transport : Transport) (s : Store) (method endpoint : String)
    (body token : Option String) :
    ((∀ t, token = some t → t ≠ "" →
      (bunqRequest uuid signer transport s method endpoint body
        token).req.headers.auth = some t) ∧
    (jsAbsent token → ∀ st, s.sessionToken = some st → st ≠ "" →
      (bunqRequest uuid signer transport s method endpoint body
        token).req.headers.auth = some st) ∧
    (jsAbsent token → jsAbsent s.sessionToken →
      ∀ it, s.installationToken = some it → it ≠ "" →
      (bunqRequest uuid signer transport s method endpoint body
        token).req.headers.auth = some it) ∧
    (jsAbsent token → jsAbsent s.sessionToken →
      jsAbsent s.installationToken →
      (bunqRequest uuid signer transport s method endpoint body
        token).req.headers.auth = none)) := by
  refine ⟨?_, ?_, ?_, ?_⟩
  · intro t ht hne
    simp [bunqRequest, selectToken, jsOr, truthy, ht, hne]
  · rintro (h | h) st hst hne <;>
      simp [bunqRequest, selectToken, jsOr, truthy, h, hst, hne]
  · rintro (h | h) (h2 | h2) it hit hne <;>
      simp [bunqRequest, selectToken, jsOr, truthy, h, h2, hit, hne]
  · rintro (h | h) (h2 | h2) (h3 | h3) <;>
      simp [bunqRequest, selectToken, jsOr, truthy, h, h2, h3]

/-- C7 witness: with an explicit token `TOK` and a store holding a
session token, the explicit token wins; with no explicit token, the
session token is used. -/
theorem c7_witness :
    (bunqRequest "u" failSigner okTransport
      { sessionToken := some "SESS" } "GET" "/p" none
      (some "TOK")).req.headers.auth = some "TOK" ∧
    (bunqRequest "u" failSigner okTransport
      { sessionToken := some "SESS" } "GET" "/p" none
      none).req.headers.auth = some "SESS" := by
  constructor
  · exact (c7_token_precedence "u" failSigner okTransport
      { sessionToken := some "SESS" } "GET" "/p" none (some "TOK")).1
      "TOK" rfl (by decide)
  · exact (c7_token_precedence "u" failSigner okTransport
      { sessionToken := some "SESS" } "GET" "/p" none none).2.1
      (Or.inl rfl) "SESS" rfl (by decide)

/-- C8: the signature header is attached exactly when a private key is
present (truthy) and the signer produced a non-empty signature; an
absent key or a signing failure leaves the header off, and in every case
the request is still sent and the dispatch outcome is exactly the
transport's answer to the built request — signing failure never blocks
the call. -/
theorem c8_signature_best_effort (uuid : String) (signer : Signer)
    (transport : Transport) (s : Store) (method endpoint : String)
    (body token : Option String) :
    ((s.privateKey = none →
      (bunqRequest uuid signer transport s method endpoint body
        token).req.headers.signature = none) ∧
    (∀ pk, s.privateKey = some pk →
      signer pk (signData method endpoint body) = none →
      (bunqRequest uuid signer transport s method endpoint body
        token).req.headers.signature = none) ∧
    (∀ sig,
      (bunqRequest uuid signer transport s method endpoint body
        token).req.headers.signature = some sig →
      truthy s.privateKey = true ∧ sig ≠ "" ∧
      signRequest signer method endpoint body (s.privateKey.getD "")
        = sig) ∧
    (bunqRequest uuid signer transport s method endpoint body
        token).result =
      transport (bunqRequest uuid signer transport s method endpoint body
        token).req) := by
  refine ⟨?_, ?_, ?_, rfl⟩
  · intro h
    simp [bunqRequest, truthy, h]
  · intro pk hpk hfail
    by_cases hemp : pk = ""
    · simp [bunqRequest, truthy, hpk, hemp]
    · simp [bunqRequest, truthy, hpk, hemp, signRequest, hfail]
  · intro sig hsig
    simp only [bunqRequest] at hsig
    split at hsig
    · split at hsig
      · exact absurd hsig (by simp)
      · rename_i htr hne
        refine ⟨htr, ?_, ?_⟩
        · cases hsig; exact hne
        · cases hsig; rfl
    · exact absurd hsig (by simp)

/-- C8 witness: with a private key and a failing signer, the signature
header is absent yet the transport's answer is returned. -/
theorem c8_witness :
    (bunqRequest "u" failSigner okTransport
      { privateKey := some "KEY" } "GET" "/p" none
      none).req.headers.signature = none := by
  exact (c8_signature_best_effort "u" failSigner okTransport
    { privateKey := some "KEY" } "GET" "/p" none none).2.1 "KEY" rfl rfl

/-- A non-empty credential string is truthy. -/
theorem truthy_some_ne (t : String) (h : t ≠ "") :
    truthy (some t) = true := by
  simp [truthy, h]

/-- The empty credential string is falsy. -/
theorem truthy_empty : truthy (some "") = false := rfl

/-- A missing credential is falsy. -/
theorem truthy_none_eq : truthy none = false := rfl

/-- Every network call of `setupAuth` other than the installation call
itself carries an authentication token (the installation token obtained
from the completed installation step). -/
theorem setup_calls_have_token (s : Store) (fresh : String × String)
    (net : Net) :
    ∀ c ∈ (setupAuth fresh net s).calls,
      c.endpoint ≠ "/installation" → ∃ t, c.token = some t := by
  intro c hc hne
  cases hk : truthy s.apiKey with
  | false => simp [setupAuth, hk] at hc
  | true =>
    cases h1 : net ⟨"/installation", .installation fresh.2, none⟩ with
    | error e =>
      simp [setupAuth, keyPairStep, hk, h1] at hc
      subst hc
      exact absurd rfl hne
    | ok env1 =>
      cases hscan : truthy (scanInstall env1).1 with
      | false =>
        simp [setupAuth, keyPairStep, hk, h1, hscan] at hc
        subst hc
        exact absurd rfl hne
      | true =>
        cases h2 : net ⟨"/device-server",
            .deviceServer "bunq-cli" (s.apiKey.getD "") ["*"],
            some ((scanInstall env1).1.getD "")⟩ with
        | error e =>
          simp [setupAuth, keyPairStep, hk, h1, hscan, h2] at hc
          rcases hc with hc | hc
          · subst hc; exact absurd rfl hne
          · subst hc; exact ⟨_, rfl⟩
        | ok env2 =>
          cases h3 : net ⟨"/session-server",
              .sessionServer (s.apiKey.getD ""),
              some ((scanInstall env1).1.getD "")⟩ with
          | error e =>
            simp [setupAuth, keyPairStep, hk, h1, hscan, h2, h3] at hc
            rcases hc with hc | hc | hc
            · subst hc; exact absurd rfl hne
            · subst hc; exact ⟨_, rfl⟩
            · subst hc; exact ⟨_, rfl⟩
          | ok env3 =>
            cases hsc : truthy (scanSession env3).1 with
            | false =>
              simp [setupAuth, keyPairStep, hk, h1, hscan, h2, h3,
                hsc] at hc
              rcases hc with hc | hc | hc <;> subst hc
              · exact absurd rfl hne
              · exact ⟨_, rfl⟩
              · exact ⟨_, rfl⟩
            | true =>
              simp [setupAuth, keyPairStep, hk, h1, hscan, h2, h3,
                hsc] at hc
              rcases hc with hc | hc | hc <;> subst hc
              · exact absurd rfl hne
              · exact ⟨_, rfl⟩
              · exact ⟨_, rfl⟩

/-- C1: running the full setup with a truthy (non-empty) API key and the
canned responses — installation answering a token entry `T1`, device
registration answering no token, session creation answering a token
entry `T2` and a `UserPerson` with id 42 — succeeds and leaves the store
with `installationToken = T1`, `sessionToken = T2`, `userId = 42`; and
whichever of the three steps fails, the remaining steps are not
attempted (the call trace stops at the failing step) and the underlying
error is surfaced unchanged. -/
theorem c1_full_setup_canned_and_abort (s : Store) (k : String)
    (fresh : String × String) (net : Net) (hk : s.apiKey = some k)
    (hkne : k ≠ "") :
    (net ⟨"/installation", .installation fresh.2, none⟩ =
        .ok [{ token := some "T1" }] →
      net ⟨"/device-server", .deviceServer "bunq-cli" k ["*"], some "T1"⟩ =
        .ok [] →
      net ⟨"/session-server", .sessionServer k, some "T1"⟩ =
        .ok [{ token := some "T2" }, { userPerson := some 42 }] →
      (setupAuth fresh net s).err = none ∧
      (setupAuth fresh net s).store.installationToken = some "T1" ∧
      (setupAuth fresh net s).store.sessionToken = some "T2" ∧
      (setupAuth fresh net s).store.userId = some "42") ∧
    (∀ e, net ⟨"/installation", .installation fresh.2, none⟩ = .error e →
      (setupAuth fresh net s).err = some e ∧
      (setupAuth fresh net s).calls =
        [⟨"/installation", .installation fresh.2, none⟩]) ∧
    (∀ e env tok srv,
      net ⟨"/installation", .installation fresh.2, none⟩ = .ok env →
      scanInstall env = (some tok, srv) → tok ≠ "" →
      net ⟨"/device-server", .deviceServer "bunq-cli" k ["*"], some tok⟩ =
        .error e →
      (setupAuth fresh net s).err = some e ∧
      (setupAuth fresh net s).calls =
        [⟨"/installation", .installation fresh.2, none⟩,
         ⟨"/device-server", .deviceServer "bunq-cli" k ["*"], some tok⟩]) ∧
    (∀ e env tok srv env2,
      net ⟨"/installation", .installation fresh.2, none⟩ = .ok env →
      scanInstall env = (some tok, srv) → tok ≠ "" →
      net ⟨"/device-server", .deviceServer "bunq-cli" k ["*"], some tok⟩ =
        .ok env2 →
      net ⟨"/session-server", .sessionServer k, some tok⟩ = .error e →
      (setupAuth fresh net s).err = some e ∧
      (setupAuth fresh net s).calls =
        [⟨"/installation", .installation fresh.2, none⟩,
         ⟨"/device-server", .deviceServer "bunq-cli" k ["*"], some tok⟩,
         ⟨"/session-server", .sessionServer k, some tok⟩]) := by
  refine ⟨?_, ?_, ?_, ?_⟩
  · intro h1 h2 h3
    simp [setupAuth, keyPairStep, truthy, hk, hkne, h1, h2, h3,
      scanInstall, scanSession]
    rfl
  · intro e h1
    simp [setupAuth, keyPairStep, truthy, hk, hkne, h1]
  · intro e env tok srv h1 hscan htok h2
    simp [setupAuth, keyPairStep, truthy, hk, hkne, h1, hscan, htok, h2]
  · intro e env tok srv env2 h1 hscan htok h2 h3
    simp [setupAuth, keyPairStep, truthy, hk, hkne, h1, hscan, htok,
      h2, h3]

/-- C1 witness: the canned oracle run on a store holding only the API
key yields exactly the spec's end-to-end store contents. -/
theorem c1_witness :
    (setupAuth ("P", "Q") cannedNet { apiKey := some "K" }).err = none ∧
    (setupAuth ("P", "Q") cannedNet
      { apiKey := some "K" }).store.installationToken = some "T1" ∧
    (setupAuth ("P", "Q") cannedNet
      { apiKey := some "K" }).store.sessionToken = some "T2" ∧
    (setupAuth ("P", "Q") cannedNet
      { apiKey := some "K" }).store.userId = some "42" := by
  exact (c1_full_setup_canned_and_abort { apiKey := some "K" } "K"
    ("P", "Q") cannedNet rfl (by decide)).1 rfl rfl rfl

/-- C9: with a truthy (non-empty) API key, the installation step scans
the response envelope for a token entry and a server-public-key entry —
on the fixture envelope with `Token.token = abc` and
`ServerPublicKey.server_public_key = pk` it persists
`installationToken = abc` and `serverPublicKey = pk`; when no token
entry is found it fails with a `ProtocolError` and leaves
`installationToken` unchanged (nothing persisted); and the stored
`serverPublicKey` is overwritten only when the entry is present. -/
theorem c9_install_envelope_parsing (s : Store) (k : String)
    (fresh : String × String) (net : Net) (hk : s.apiKey = some k)
    (hkne : k ≠ "") :
    (net ⟨"/installation", .installation fresh.2, none⟩ =
        .ok [{ token := some "abc" }, { serverPublicKey := some "pk" }] →
      (setupAuth fresh net s).store.installationToken = some "abc" ∧
      (setupAuth fresh net s).store.serverPublicKey = some "pk") ∧
    (∀ env, net ⟨"/installation", .installation fresh.2, none⟩ = .ok env →
      (scanInstall env).1 = none →
      (setupAuth fresh net s).err = some (.protocolError
        "Failed to obtain installation token from response.") ∧
      (setupAuth fresh net s).store.installationToken
        = s.installationToken) ∧
    (∀ env tok, net ⟨"/installation", .installation fresh.2, none⟩ =
        .ok env →
      scanInstall env = (some tok, none) →
      (setupAuth fresh net s).store.serverPublicKey
        = s.serverPublicKey) := by
  refine ⟨?_, ?_, ?_⟩
  · intro h1
    cases h2 : net ⟨"/device-server", .deviceServer "bunq-cli" k ["*"],
        some "abc"⟩ with
    | error e =>
      simp [setupAuth, keyPairStep, truthy, hk, hkne, h1, scanInstall, h2]
    | ok env2 =>
      cases h3 : net ⟨"/session-server", .sessionServer k, some "abc"⟩ with
      | error e =>
        simp [setupAuth, keyPairStep, truthy, hk, hkne, h1, scanInstall,
          h2, h3]
      | ok env3 =>
        cases hsc : truthy (scanSession env3).1 with
        | false =>
          simp [setupAuth, keyPairStep, hk, h1, scanInstall, h2, h3, hsc,
            truthy_some_ne k hkne, truthy_some_ne "abc" (by decide),
            truthy_some_ne "pk" (by decide)]
        | true =>
          simp [setupAuth, keyPairStep, hk, h1, scanInstall, h2, h3, hsc,
            truthy_some_ne k hkne, truthy_some_ne "abc" (by decide),
            truthy_some_ne "pk" (by decide)]
  · intro env h1 hnone
    simp [setupAuth, keyPairStep, truthy, hk, hkne, h1, hnone]
  · intro env tok h1 hscan
    by_cases htok : tok = ""
    · simp [setupAuth, keyPairStep, truthy, hk, hkne, h1, hscan, htok]
    · cases h2 : net ⟨"/device-server", .deviceServer "bunq-cli" k ["*"],
          some tok⟩ with
      | error e =>
        simp [setupAuth, keyPairStep, truthy, hk, hkne, h1, hscan,
          htok, h2]
      | ok env2 =>
        cases h3 : net ⟨"/session-server", .sessionServer k,
            some tok⟩ with
        | error e =>
          simp [setupAuth, keyPairStep, truthy, hk, hkne, h1, hscan,
            htok, h2, h3]
        | ok env3 =>
          cases hsc : truthy (scanSession env3).1 with
          | false =>
            simp [setupAuth, keyPairStep, hk, h1, hscan, h2, h3, hsc,
              truthy_some_ne k hkne, truthy_some_ne tok htok,
              truthy_none_eq]
          | true =>
            simp [setupAuth, keyPairStep, hk, h1, hscan, h2, h3, hsc,
              truthy_some_ne k hkne, truthy_some_ne tok htok,
              truthy_none_eq]

/-- C9 witness: on the fixture envelope the run persists
`installationToken = abc` and `serverPublicKey = pk`. -/
theorem c9_witness :
    (setupAuth ("P", "Q") cannedNetAbc
      { apiKey := some "K" }).store.installationToken = some "abc" ∧
    (setupAuth ("P", "Q") cannedNetAbc
      { apiKey := some "K" }).store.serverPublicKey = some "pk" := by
  exact (c9_install_envelope_parsing { apiKey := some "K" } "K"
    ("P", "Q") cannedNetAbc rfl (by decide)).1 rfl

/-- C5: with no truthy installation token stored (missing or empty),
`refreshSession` delegates to the full setup; with a truthy installation
token stored and a truthy API key, it issues exactly one network call —
to the session-creation endpoint, authenticated with that stored
installation token — whatever the transport answers. -/
theorem c5_refresh_shortcut (s : Store) (fresh : String × String)
    (net : Net) :
    (jsAbsent s.installationToken →
      refreshSession fresh net s = setupAuth fresh net s) ∧
    (∀ k t, s.apiKey = some k → k ≠ "" →
      s.installationToken = some t → t ≠ "" →
      (refreshSession fresh net s).calls =
        [⟨"/session-server", .sessionServer k, some t⟩]) := by
  constructor
  · intro hinst
    cases hk : truthy s.apiKey with
    | false => simp [refreshSession, setupAuth, hk]
    | true =>
      rcases hinst with h | h <;>
        simp [refreshSession, hk, h, truthy_none_eq, truthy_empty]
  · intro k t hk hkne ht htne
    cases h : net ⟨"/session-server", .sessionServer k, some t⟩ with
    | error e =>
      simp [refreshSession, hk, ht, h, truthy_some_ne k hkne,
        truthy_some_ne t htne]
    | ok env =>
      cases hsc : truthy (scanSession env).1 with
      | false =>
        simp [refreshSession, hk, ht, h, hsc, truthy_some_ne k hkne,
          truthy_some_ne t htne]
      | true =>
        simp [refreshSession, hk, ht, h, hsc, truthy_some_ne k hkne,
          truthy_some_ne t htne]

/-- C5 witness: with a stored installation token `IT`, the refresh trace
is the single session-server call authenticated with `IT`. -/
theorem c5_witness :
    (refreshSession ("P", "Q") cannedNet
      { apiKey := some "K", installationToken := some "IT" }).calls =
      [⟨"/session-server", .sessionServer "K", some "IT"⟩] := by
  exact (c5_refresh_shortcut
    { apiKey := some "K", installationToken := some "IT" }
    ("P", "Q") cannedNet).2 "K" "IT" rfl (by decide) rfl (by decide)

/-- C3 counterexample: on a store with an API key and no installation
token, invoking the session-refresh entry point does not fail with a
configuration error and does not avoid the network — it runs the full
handshake, issuing three network calls and succeeding. -/
theorem c3_counterexample :
    (refreshSession ("P", "Q") cannedNet
      { apiKey := some "K" }).calls.length = 3 ∧
    (refreshSession ("P", "Q") cannedNet { apiKey := some "K" }).err
      = none := by
  exact ⟨rfl, rfl⟩

/-- C3 amended: there is no standalone `createSession` that fails on a
missing installation token — with no `installationToken` present the
session-refresh path delegates to the full setup (which performs the
network handshake); the ordering guarantee holds in this form: every
device-registration and session-creation call, in both the full setup
and the refresh path, is issued only with an installation token in hand
(the freshly obtained one, or the stored one), never before install
completes. -/
theorem c3_session_requires_installation (s : Store)
    (fresh : String × String) (net : Net) :
    (s.installationToken = none →
      refreshSession fresh net s = setupAuth fresh net s) ∧
    (∀ c ∈ (setupAuth fresh net s).calls,
      c.endpoint ≠ "/installation" → ∃ t, c.token = some t) ∧
    (∀ c ∈ (refreshSession fresh net s).calls,
      c.endpoint ≠ "/installation" → ∃ t, c.token = some t) := by
  refine ⟨?_, setup_calls_have_token s fresh net, ?_⟩
  · intro hinst
    cases hk : truthy s.apiKey with
    | false => simp [refreshSession, setupAuth, hk]
    | true => simp [refreshSession, hk, hinst, truthy_none_eq]
  · intro c hc hne
    cases hk : truthy s.apiKey with
    | false => simp [refreshSession, hk] at hc
    | true =>
      cases ht : truthy s.installationToken with
      | false =>
        have hdel : refreshSession fresh net s = setupAuth fresh net s := by
          simp [refreshSession, hk, ht]
        rw [hdel] at hc
        exact setup_calls_have_token s fresh net c hc hne
      | true =>
        cases h : net ⟨"/session-server",
            .sessionServer (s.apiKey.getD ""),
            some (s.installationToken.getD "")⟩ with
        | error e =>
          simp [refreshSession, hk, ht, h] at hc
          subst hc
          exact ⟨_, rfl⟩
        | ok env =>
          cases hsc : truthy (scanSession env).1 with
          | false =>
            simp [refreshSession, hk, ht, h, hsc] at hc
            subst hc
            exact ⟨_, rfl⟩
          | true =>
            simp [refreshSession, hk, ht, h, hsc] at hc
            subst hc
            exact ⟨_, rfl⟩

/-- C3 witness: on a concrete store with no installation token the
refresh path coincides with the full setup. -/
theorem c3_witness :
    refreshSession ("P", "Q") cannedNet { apiKey := some "K" } =
      setupAuth ("P", "Q") cannedNet { apiKey := some "K" } := by
  exact (c3_session_requires_installation { apiKey := some "K" }
    ("P", "Q") cannedNet).1 rfl

end Bunq
